import Mathlib

/-!
Shallow embedding of the SpectraPlots core (src/spectraplots) used to settle
the frozen claims: the region selector (`find_near`, `array_region` in its two
revisions analysis.py and methods.py), the hierarchical traversal engine
(`yield_items` over a tree store), the store access context (`h5FileContext`),
the criteria engine (`criteria_name`), and the aggregation builders
(`mk_map` / `mk_profile` write-back step).

Numeric array entries are modelled as `Int`; 2-D arrays as lists of rows.
Python exceptions are modelled with `Except PyErr`.
-/

/-- Python exception kinds that the embedded code can raise. -/
inductive PyErr where
  | typeError (msg : String)
  | indexError (msg : String)
  | valueError (msg : String)
  | nameError (msg : String)
  | unboundLocalError (msg : String)
deriving DecidableEq, Repr

instance {ε α : Type} [DecidableEq ε] [DecidableEq α] : DecidableEq (Except ε α) := fun x y =>
  match x, y with
  | Except.ok a, Except.ok b =>
      if h : a = b then isTrue (by rw [h])
      else isFalse (by intro hc; injection hc; exact h (by assumption))
  | Except.ok _, Except.error _ => isFalse (by intro h; cases h)
  | Except.error _, Except.ok _ => isFalse (by intro h; cases h)
  | Except.error a, Except.error b =>
      if h : a = b then isTrue (by rw [h])
      else isFalse (by intro hc; injection hc; exact h (by assumption))

/-- Index of the first minimum of a list of integers (models `numpy.argmin`,
which returns the lowest index attaining the minimum; 0 on the empty list,
where numpy would raise). -/
def argmin : List Int → Nat
  | [] => 0
  | [_] => 0
  | x :: y :: rest =>
      if x ≤ (y :: rest).getD (argmin (y :: rest)) 0 then 0
      else argmin (y :: rest) + 1

/-- `find_near(a, Near)` from analysis.py lines 14-25 and methods.py lines
12-23: `(np.abs(a - Near)).argmin()`, the position of the element of `a`
nearest to `Near`. -/
def find_near (a : List Int) (near : Int) : Nat :=
  argmin (a.map (fun x => (((x - near).natAbs : Nat) : Int)))

/-- Python slice `a[b:e]` for nonnegative bounds (clips out-of-range bounds,
empty when `e ≤ b`). -/
def pySlice (a : List α) (b e : Nat) : List α :=
  (a.drop b).take (e - b)

/-- Python slice `a[b:e:-1]` for nonnegative bounds: the elements at positions
`min b (len-1), ..., e+1` in decreasing order, i.e. the reverse of
`a[e+1 : min b (len-1) + 1]`. -/
def pySliceRevStep (a : List α) (b e : Nat) : List α :=
  (pySlice a (e + 1) (min b (a.length - 1) + 1)).reverse

/-- The inner `__region` of analysis.py lines 50-54: `a[begin:end]` when
`begin <= end`, else `a[end:begin]` (a forward slice with swapped bounds). -/
def region_analysis (a : List (List Int)) (b e : Nat) : List (List Int) :=
  if b ≤ e then pySlice a b e else pySlice a e b

/-- The inner `__region` of methods.py lines 47-51: `a[begin:end]` when
`begin <= end`, else the reverse-order slice `a[begin:end:-1]`. -/
def region_methods (a : List (List Int)) (b e : Nat) : List (List Int) :=
  if b ≤ e then pySlice a b e else pySliceRevStep a b e

/-- Normalize a Python index against a length: negative indices wrap once,
out-of-range indices are rejected (models basic numpy integer indexing). -/
def pyIndex (len : Nat) (i : Int) : Option Nat :=
  let j : Int := if i < 0 then i + len else i
  if 0 ≤ j ∧ j < len then some j.toNat else none

/-- `a[i, j]` for a 2-D numpy array: basic integer indexing of both axes
yields the scalar element, or IndexError when either index is out of
bounds. -/
def npScalarGet (a : List (List Int)) (i j : Int) : Except PyErr Int :=
  match pyIndex a.length i with
  | none => Except.error (PyErr.indexError "index out of bounds for axis 0")
  | some r =>
      let row := a.getD r []
      match pyIndex row.length j with
      | none => Except.error (PyErr.indexError "index out of bounds for axis 1")
      | some c => Except.ok (row.getD c 0)

/-- Tuple-unpacking `begin, end = s` where `s` is a zero-dimensional numpy
value (a scalar): Python raises TypeError, since a scalar is not iterable. -/
def unpackPair (_s : Int) : Except PyErr (Nat × Nat) :=
  Except.error (PyErr.typeError "cannot unpack non-iterable numpy scalar")

/-- Resolution of one interval to `(begin, end)` positions, from
analysis.py lines 59-62 and methods.py lines 55-58: with `index=True`,
`begin, end = a[interval[0], interval[1]]` (scalar lookup then tuple unpack);
with `index=False`, nearest-value lookup along column `dim` via
`find_near`. -/
def resolveInterval (a : List (List Int)) (iv : Int × Int) (index : Bool)
    (dim : Nat) : Except PyErr (Nat × Nat) :=
  if index then
    match npScalarGet a iv.1 iv.2 with
    | Except.error e => Except.error e
    | Except.ok s => unpackPair s
  else
    Except.ok (find_near (a.map (fun row => row.getD dim 0)) iv.1,
               find_near (a.map (fun row => row.getD dim 0)) iv.2)

/-- The interval loop shared by both `array_region` revisions: resolve each
interval, cut the region with the given `__region`, and concatenate the
regions in the order the intervals were given. -/
def regionLoop (reg : List (List Int) → Nat → Nat → List (List Int))
    (a : List (List Int)) (index : Bool) (dim : Nat) :
    List (Int × Int) → Except PyErr (List (List Int))
  | [] => Except.ok []
  | iv :: rest =>
      match resolveInterval a iv index dim with
      | Except.error e => Except.error e
      | Except.ok (b, e) =>
          match regionLoop reg a index dim rest with
          | Except.error err => Except.error err
          | Except.ok rs => Except.ok (reg a b e ++ rs)

/-- `array_region` from analysis.py lines 28-66: with zero intervals the
`else` branch returns the array unchanged; otherwise the interval loop runs
with the analysis.py `__region`. -/
def array_region_analysis (a : List (List Int)) (intervals : List (Int × Int))
    (index : Bool) (dim : Nat) : Except PyErr (List (List Int)) :=
  match intervals with
  | [] => Except.ok a
  | iv :: rest => regionLoop region_analysis a index dim (iv :: rest)

/-- `array_region` from methods.py lines 25-61: with zero intervals the `for`
loop body never runs and `return region` reads the never-assigned local
`region`, raising UnboundLocalError; otherwise the interval loop runs with
the methods.py `__region`. -/
def array_region_methods (a : List (List Int)) (intervals : List (Int × Int))
    (index : Bool) (dim : Nat) : Except PyErr (List (List Int)) :=
  match intervals with
  | [] => Except.error
      (PyErr.unboundLocalError "local variable region referenced before assignment")
  | iv :: rest => regionLoop region_methods a index dim (iv :: rest)

/-- A node of the hierarchical store (h5py tree): a Group with named children
or a Dataset leaf. `name` is the full slash-delimited path of the node, as
returned by the `.name` property of h5py objects. -/
inductive Node where
  | group (name : String) (children : List Node)
  | dataset (name : String)

/-- The full path of a node (`h5_object.name` in the source). -/
def Node.name : Node → String
  | Node.group nm _ => nm
  | Node.dataset nm => nm

/-- `_default_criteria` from h5utils.py lines 224-225 (and the local
`__default_criteria` of `yield_items`): always true. -/
def _default_criteria (_x : α) : Bool := true

mutual

/-- Body of `yield_items` (h5utils.py lines 187-204) for an open node, with
the depth budget already normalized to a natural number: emit the node when
both criteria accept it; then, if the budget is nonzero, walk the children
with the decremented budget, recursing into child Groups and emitting
matching child Datasets inline. -/
def yieldN (nc : String → Bool) (oc : Node → Bool) : Node → Nat → List Node
  | Node.dataset nm, _ =>
      if oc (Node.dataset nm) && nc nm then [Node.dataset nm] else []
  | Node.group nm ch, d =>
      (if oc (Node.group nm ch) && nc nm then [Node.group nm ch] else []) ++
      (if d = 0 then [] else yieldList nc oc ch (d - 1))

/-- The `for key, value in h5_object.items()` loop of `yield_items`,
walking the children in store order. -/
def yieldList (nc : String → Bool) (oc : Node → Bool) : List Node → Nat → List Node
  | [], _ => []
  | c :: rest, d => yieldN nc oc c d ++ yieldList nc oc rest d

end

/-- `yield_items` from h5utils.py lines 117-204. Opening the store reference
via `_access_h5` raises TypeError when the reference is a Dataset handle
(h5FileContext accepts only File, Group or str). The depth budget `deep` is
an integer and is normalized with `abs()` before use (line 191); every
recursive call then receives a nonnegative budget, on which `abs()` is the
identity, so the normalization is applied once at entry. -/
def yield_items (nc : String → Bool) (oc : Node → Bool) (node : Node)
    (deep : Int) : Except PyErr (List Node) :=
  match node with
  | Node.group nm ch => Except.ok (yieldN nc oc (Node.group nm ch) deep.natAbs)
  | Node.dataset _ => Except.error
      (PyErr.typeError "Unsupported type for file_name_or_object. Must be an H5 file or a string file name.")

mutual

/-- Reference definition following the spec: the depth-bounded pre-order
traversal of a node, children in store order, datasets treated as depth-free
leaves exactly as in `yield_items`. -/
def preN : Node → Nat → List Node
  | Node.dataset nm, _ => [Node.dataset nm]
  | Node.group nm ch, d =>
      Node.group nm ch :: (if d = 0 then [] else preList ch (d - 1))

/-- Depth-bounded pre-order traversal of a child list, in store order. -/
def preList : List Node → Nat → List Node
  | [], _ => []
  | c :: rest, d => preN c d ++ preList rest d

end

/-- Leaf `/g1/a` of the fixture tree. -/
def fixtureA : Node := Node.dataset "/g1/a"

/-- Leaf `/g1/b` of the fixture tree. -/
def fixtureB : Node := Node.dataset "/g1/b"

/-- Group `/g1` of the fixture tree. -/
def fixtureG1 : Node := Node.group "/g1" [fixtureA, fixtureB]

/-- Leaf `/g2` of the fixture tree. -/
def fixtureG2 : Node := Node.dataset "/g2"

/-- The fixture tree of claim C3. -/
def fixtureTree : Node := Node.group "/" [fixtureG1, fixtureG2]

/-- The possible values of `file_name_or_object` passed to `h5FileContext`
(h5utils.py lines 10-60): an already-open File handle, an already-open Group
handle, a path string, or anything else. Handles are identified by a
number. -/
inductive H5Ref where
  | file (id : Nat)
  | group (id : Nat)
  | path (s : String)
  | other
deriving DecidableEq

/-- The set of currently open file handles, plus a counter supplying the next
fresh handle. -/
structure H5State where
  openIds : List Nat
  nextId : Nat
deriving DecidableEq

/-- `h5FileContext.__enter__` (h5utils.py lines 44-56): an already-open File
or Group is returned as is; a path string opens a fresh file handle; anything
else raises TypeError. -/
def h5context_enter : H5Ref → H5State → Except PyErr (Nat × H5State)
  | H5Ref.file i, st => Except.ok (i, st)
  | H5Ref.group i, st => Except.ok (i, st)
  | H5Ref.path _, st =>
      Except.ok (st.nextId, ⟨st.nextId :: st.openIds, st.nextId + 1⟩)
  | H5Ref.other, _ => Except.error
      (PyErr.typeError "Unsupported type for file_name_or_object. Must be an H5 file or a string file name.")

/-- `h5FileContext.__exit__` (h5utils.py lines 58-60): runs on every exit
path (the `exc` flag records whether the block exited with an exception and
is ignored); it closes `self.h5_file` exactly when the constructor argument
was a string. -/
def h5context_exit (ref : H5Ref) (handle : Nat) (_exc : Bool)
    (st : H5State) : H5State :=
  match ref with
  | H5Ref.path _ => ⟨st.openIds.erase handle, st.nextId⟩
  | _ => st

/-- Python prefix test `s.startswith(p)`, over the character lists. -/
def strStarts (s p : String) : Bool :=
  List.isPrefixOf p.toList s.toList

/-- Python suffix test `s.endswith(p)`, over the character lists. -/
def strEnds (s p : String) : Bool :=
  List.isSuffixOf p.toList s.toList

/-- Python substring test `sub in s`, over the character lists. -/
def strContains (s sub : String) : Bool :=
  (List.range (s.toList.length + 1)).any
    (fun k => List.isPrefixOf sub.toList (s.toList.drop k))

/-- `criteria_name` from h5utils.py lines 240-280. Each nonempty sub-criteria
list is mapped elementwise over `path` and reduced with the chosen operator:
`"and"` maps to `np.prod` over the boolean array, whose truthiness is the
conjunction; any other operator maps to `np.sum`, whose truthiness is the
disjunction. Empty lists are vacuously true. The six clause results are
combined with logical and. -/
def criteria_name (path : String) (in_path not_in_path starts ends
    not_starts not_ends : List String) (operator : String) : Bool :=
  let op : List Bool → Bool := fun bs =>
    if operator = "and" then bs.all (fun b => b) else bs.any (fun b => b)
  let c_in := if in_path.isEmpty then true
    else op (in_path.map (fun inc => strContains path inc))
  let c_starts := if starts.isEmpty then true
    else op (starts.map (fun c => strStarts path c))
  let c_ends := if ends.isEmpty then true
    else op (ends.map (fun c => strEnds path c))
  let c_not_in := if not_in_path.isEmpty then true
    else op (not_in_path.map (fun c => !(strContains path c)))
  let c_not_starts := if not_starts.isEmpty then true
    else op (not_starts.map (fun c => !(strStarts path c)))
  let c_not_ends := if not_ends.isEmpty then true
    else op (not_ends.map (fun c => !(strEnds path c)))
  c_in && c_not_in && c_starts && c_not_starts && c_ends && c_not_ends

/-- Payload of a derived Leaf written by an aggregation builder: the Nx2
profile curve of `mk_profile`, or the 3-layer `[X, Y, Z]` tensor of
`mk_map`. -/
inductive H5Data where
  | profile (rows : List (Int × Int))
  | map3 (xs ys zs : List (List Int))
deriving DecidableEq

/-- A child of the root Group: a named Leaf with its data and its attribute
map (attribute values arise from float averaging, modelled as rationals). -/
structure Leaf where
  name : String
  data : H5Data
  attrs : List (String × Rat)
deriving DecidableEq

/-- The children of the root Group of the store, in insertion order. -/
abbrev Store := List Leaf

/-- `root.create_dataset(name, data)`: h5py raises ValueError when a child
of that name already exists under the Group, and otherwise appends a new
Leaf with no attributes. -/
def create_dataset (root : Store) (name : String) (d : H5Data) :
    Except PyErr Store :=
  if root.any (fun l => l.name == name) then
    Except.error (PyErr.valueError "Unable to synchronously create dataset (name already exists)")
  else Except.ok (root ++ [⟨name, d, []⟩])

/-- Attach an attribute list to the most recently created Leaf (the last
child), modelling the `mesh.attrs.create` loop that follows a successful
`create_dataset`. -/
def setLastAttrs : Store → List (String × Rat) → Store
  | [], _ => []
  | [l], as => [⟨l.name, l.data, as⟩]
  | l :: rest, as => l :: setLastAttrs rest as

/-- The write-back step of `mk_map` (analysis.py lines 253-265): inside
`try`, create the `[X, Y, Z]` dataset under the root and then store the
average of each requested attribute (`attributes_dict[attribute]/(count+1)`,
with `n = count+1` input leaves) on it; `except ValueError` catches the name
collision, prints, and leaves the store unchanged. -/
def mk_map_write (root : Store) (name : String) (xs ys zs : List (List Int))
    (attributes : List String) (attributes_dict : String → Rat) (n : Rat) :
    Store :=
  match create_dataset root name (H5Data.map3 xs ys zs) with
  | Except.error _ => root
  | Except.ok r2 =>
      setLastAttrs r2 (attributes.map (fun a => (a, attributes_dict a / n)))

/-- One input dataset of `mk_profile`: the numeric value of its `xattr`
attribute and its Nx2 rows. -/
structure DSet where
  xattrVal : Int
  rows : List (Int × Int)
deriving DecidableEq

/-- `y[count]` for one dataset in `mk_profile` (analysis.py lines 315-318,
default `baseline=''` and `func=None` path): the intensity at the row whose
column-0 value is nearest `profile_value`. -/
def profilePoint (d : DSet) (profile_value : Int) : Int :=
  (d.rows.getD (find_near (d.rows.map Prod.fst) profile_value) (0, 0)).2

/-- `mk_profile` from analysis.py lines 268-335 over its input datasets (the
Leaves reached through `keys`, default `xattr`, `baseline=''`, `func=None`).
With no datasets the loop body never runs and nothing is written. At the
last dataset, inside `try`: `np.stack((x, y), axis=-1)` is written with
`create_dataset`; `except ValueError` catches a name collision, prints, and
leaves the store unchanged. On success the attribute loop evaluates
`attributes_dict[attribute]`, but no `attributes_dict` variable is ever
assigned in `mk_profile` (it exists only in `mk_map`), so a nonempty
`attributes` list raises NameError, which `except ValueError` does not
catch. -/
def mk_profile (root : Store) (dsets : List DSet) (profile_value : Int)
    (name : String) (attributes : List String) : Except PyErr Store :=
  match dsets with
  | [] => Except.ok root
  | _ :: _ =>
      let profile := dsets.map (fun d => (d.xattrVal, profilePoint d profile_value))
      match create_dataset root name (H5Data.profile profile) with
      | Except.error _ => Except.ok root
      | Except.ok r2 =>
          match attributes with
          | [] => Except.ok r2
          | _ :: _ => Except.error
              (PyErr.nameError "name attributes_dict is not defined")

theorem argmin_cons_cons (x y : Int) (rest : List Int) :
    argmin (x :: y :: rest) =
      if x ≤ (y :: rest).getD (argmin (y :: rest)) 0 then 0
      else argmin (y :: rest) + 1 := rfl

theorem argmin_lt_length : ∀ (l : List Int), l ≠ [] → argmin l < l.length := by
  intro l
  induction l with
  | nil => intro h; exact absurd rfl h
  | cons x xs ih =>
    intro _
    cases xs with
    | nil => simp [argmin]
    | cons y rest =>
      rw [argmin_cons_cons]
      by_cases hx : x ≤ (y :: rest).getD (argmin (y :: rest)) 0
      · rw [if_pos hx]; simp
      · rw [if_neg hx]
        have h1 := ih (by simp)
        simp only [List.length_cons] at h1 ⊢
        omega

theorem argmin_is_min : ∀ (l : List Int) (j : Nat), j < l.length →
    l.getD (argmin l) 0 ≤ l.getD j 0 := by
  intro l
  induction l with
  | nil => intro j hj; simp at hj
  | cons x xs ih =>
    intro j hj
    cases xs with
    | nil =>
      have hj0 : j = 0 := by simpa using hj
      subst hj0
      simp [argmin]
    | cons y rest =>
      rw [argmin_cons_cons]
      by_cases hx : x ≤ (y :: rest).getD (argmin (y :: rest)) 0
      · rw [if_pos hx]
        cases j with
        | zero => exact le_refl _
        | succ j2 =>
          have hj2 : j2 < (y :: rest).length := by simpa using hj
          have h2 := ih j2 hj2
          rw [List.getD_cons_zero, List.getD_cons_succ]
          exact le_trans hx h2
      · rw [if_neg hx]
        cases j with
        | zero =>
          rw [List.getD_cons_zero, List.getD_cons_succ]
          omega
        | succ j2 =>
          have hj2 : j2 < (y :: rest).length := by simpa using hj
          rw [List.getD_cons_succ, List.getD_cons_succ]
          exact ih j2 hj2

theorem argmin_first_min : ∀ (l : List Int) (j : Nat), j < argmin l →
    l.getD (argmin l) 0 < l.getD j 0 := by
  intro l
  induction l with
  | nil => intro j hj; simp [argmin] at hj
  | cons x xs ih =>
    intro j hj
    cases xs with
    | nil => simp [argmin] at hj
    | cons y rest =>
      rw [argmin_cons_cons] at hj ⊢
      by_cases hx : x ≤ (y :: rest).getD (argmin (y :: rest)) 0
      · rw [if_pos hx] at hj; omega
      · rw [if_neg hx] at hj ⊢
        cases j with
        | zero =>
          rw [List.getD_cons_zero, List.getD_cons_succ]
          omega
        | succ j2 =>
          rw [List.getD_cons_succ, List.getD_cons_succ]
          exact ih j2 (by omega)

theorem find_near_def (a : List Int) (t : Int) :
    find_near a t = argmin (a.map (fun x => (((x - t).natAbs : Nat) : Int))) := rfl

theorem getD_map_natAbs : ∀ (a : List Int) (t : Int) (j : Nat), j < a.length →
    (a.map (fun x => (((x - t).natAbs : Nat) : Int))).getD j 0 =
      (((a.getD j 0 - t).natAbs : Nat) : Int) := by
  intro a t
  induction a with
  | nil => intro j hj; simp at hj
  | cons x xs ih =>
    intro j hj
    cases j with
    | zero => simp
    | succ j2 =>
      rw [List.map_cons, List.getD_cons_succ, List.getD_cons_succ]
      exact ih j2 (by simpa using hj)

theorem find_near_lt_length (a : List Int) (t : Int) (h : a ≠ []) :
    find_near a t < a.length := by
  have hm : a.map (fun x => (((x - t).natAbs : Nat) : Int)) ≠ [] := by
    cases a with
    | nil => exact absurd rfl h
    | cons x xs => simp
  have h1 := argmin_lt_length _ hm
  rw [List.length_map] at h1
  rw [find_near_def]
  exact h1

/-- Claim C6: for every non-empty array `a` and scalar `t`, the index
`i = find_near(a, t)` is in range, `abs(a[i] - t)` is at most `abs(a[j] - t)`
for every index `j`, and `i` is the lowest index attaining that minimum
(every strictly earlier index has a strictly larger distance). -/
theorem c6_find_near_spec (a : List Int) (t : Int) (h : a ≠ []) :
    find_near a t < a.length ∧
    (∀ j, j < a.length →
      (a.getD (find_near a t) 0 - t).natAbs ≤ (a.getD j 0 - t).natAbs) ∧
    (∀ j, j < find_near a t →
      (a.getD (find_near a t) 0 - t).natAbs < (a.getD j 0 - t).natAbs) := by
  have hlen : find_near a t < a.length := find_near_lt_length a t h
  refine ⟨hlen, ?_, ?_⟩
  · intro j hj
    have h1 := argmin_is_min (a.map (fun x => (((x - t).natAbs : Nat) : Int))) j
      (by rw [List.length_map]; exact hj)
    rw [← find_near_def] at h1
    rw [getD_map_natAbs a t _ hlen, getD_map_natAbs a t j hj] at h1
    exact_mod_cast h1
  · intro j hj
    have hjlen : j < a.length := lt_trans hj hlen
    have h2 := argmin_first_min (a.map (fun x => (((x - t).natAbs : Nat) : Int))) j
      (by rw [← find_near_def]; exact hj)
    rw [← find_near_def] at h2
    rw [getD_map_natAbs a t _ hlen, getD_map_natAbs a t j hjlen] at h2
    exact_mod_cast h2

/-- Witness for C6 at `a = [5, 2, 9]`, `t = 1` (where `find_near` picks
index 1, the element 2). -/
theorem c6_find_near_witness :
    ([5, 2, 9] : List Int) ≠ [] ∧
    (find_near [5, 2, 9] 1 < ([5, 2, 9] : List Int).length ∧
     (∀ j, j < ([5, 2, 9] : List Int).length →
       (([5, 2, 9] : List Int).getD (find_near [5, 2, 9] 1) 0 - 1).natAbs ≤
         (([5, 2, 9] : List Int).getD j 0 - 1).natAbs) ∧
     (∀ j, j < find_near [5, 2, 9] 1 →
       (([5, 2, 9] : List Int).getD (find_near [5, 2, 9] 1) 0 - 1).natAbs <
         (([5, 2, 9] : List Int).getD j 0 - 1).natAbs)) :=
  ⟨by decide, c6_find_near_spec [5, 2, 9] 1 (by decide)⟩

/-- Claim C1, evaluated at the failing input `a = [[1,2],[3,4],[5,6]]`,
interval `[0,1]`, `index=True`: both revisions of `array_region` evaluate
`begin, end = a[interval[0], interval[1]]`, i.e. tuple-unpack the scalar
`a[0,1]`, raising TypeError, instead of returning the slice `a[0:1] = [[1,2]]`
that the claim states. -/
theorem c1_index_mode_eval :
    array_region_analysis [[1, 2], [3, 4], [5, 6]] [(0, 1)] true 0 =
      Except.error (PyErr.typeError "cannot unpack non-iterable numpy scalar") ∧
    array_region_methods [[1, 2], [3, 4], [5, 6]] [(0, 1)] true 0 =
      Except.error (PyErr.typeError "cannot unpack non-iterable numpy scalar") ∧
    array_region_analysis [[1, 2], [3, 4], [5, 6]] [(0, 1)] true 0 ≠
      Except.ok [[1, 2]] := by
  refine ⟨rfl, rfl, ?_⟩
  decide

/-- Claim C2, counterexample: the methods.py revision of `array_region`,
called with zero intervals on the array `[[1, 2]]`, does not return the
array unchanged (it raises UnboundLocalError). -/
theorem c2_zero_intervals_cex :
    array_region_methods [[1, 2]] [] false 0 ≠ Except.ok [[1, 2]] := by
  decide

/-- Claim C2 as amended: with zero intervals, the analysis.py `array_region`
returns the input array unchanged, while the older methods.py revision
raises UnboundLocalError from the undefined loop variable `region`. -/
theorem c2_zero_intervals_amended :
    ∀ (a : List (List Int)) (index : Bool) (dim : Nat),
      array_region_analysis a [] index dim = Except.ok a ∧
      array_region_methods a [] index dim = Except.error
        (PyErr.unboundLocalError "local variable region referenced before assignment") :=
  fun _ _ _ => ⟨rfl, rfl⟩

theorem yieldList_eq_filter (nc : String → Bool) (oc : Node → Bool) :
    ∀ (cs : List Node),
      (∀ c ∈ cs, ∀ d : Nat, yieldN nc oc c d =
        (preN c d).filter (fun x => oc x && nc (Node.name x))) →
      ∀ d : Nat, yieldList nc oc cs d =
        (preList cs d).filter (fun x => oc x && nc (Node.name x)) := by
  intro cs
  induction cs with
  | nil => intro _ d; rfl
  | cons c rest ih =>
    intro hc d
    rw [show yieldList nc oc (c :: rest) d =
      yieldN nc oc c d ++ yieldList nc oc rest d from rfl]
    rw [show preList (c :: rest) d = preN c d ++ preList rest d from rfl]
    rw [List.filter_append]
    rw [hc c (by simp) d]
    rw [ih (fun c2 h2 d2 => hc c2 (by simp [h2]) d2) d]

theorem yieldN_eq_filter (nc : String → Bool) (oc : Node → Bool) :
    ∀ (k : Nat) (node : Node), sizeOf node ≤ k → ∀ d : Nat,
      yieldN nc oc node d =
        (preN node d).filter (fun x => oc x && nc (Node.name x)) := by
  intro k
  induction k with
  | zero =>
    intro node hk d
    exfalso
    cases node <;> simp at hk
  | succ k ih =>
    intro node hk d
    cases node with
    | dataset nm =>
      rw [show yieldN nc oc (Node.dataset nm) d =
        (if oc (Node.dataset nm) && nc nm then [Node.dataset nm] else []) from rfl]
      rw [show preN (Node.dataset nm) d = [Node.dataset nm] from rfl]
      cases hb : oc (Node.dataset nm) && nc nm <;> simp [hb, Node.name]
    | group nm ch =>
      have hch : ∀ c ∈ ch, ∀ d2 : Nat, yieldN nc oc c d2 =
          (preN c d2).filter (fun x => oc x && nc (Node.name x)) := by
        intro c hcmem d2
        refine ih c ?_ d2
        have h1 : sizeOf c < sizeOf ch := List.sizeOf_lt_of_mem hcmem
        have h2 : sizeOf (Node.group nm ch) ≤ k + 1 := hk
        simp [Node.group.sizeOf_spec] at h2
        omega
      rw [show yieldN nc oc (Node.group nm ch) d =
        (if oc (Node.group nm ch) && nc nm then [Node.group nm ch] else []) ++
        (if d = 0 then [] else yieldList nc oc ch (d - 1)) from rfl]
      rw [show preN (Node.group nm ch) d =
        Node.group nm ch :: (if d = 0 then [] else preList ch (d - 1)) from rfl]
      by_cases hd : d = 0
      · rw [if_pos hd, if_pos hd]
        cases hb : oc (Node.group nm ch) && nc nm <;> simp [hb, Node.name]
      · rw [if_neg hd, if_neg hd]
        rw [yieldList_eq_filter nc oc ch hch (d - 1)]
        cases hb : oc (Node.group nm ch) && nc nm <;> simp [hb, Node.name]

/-- Claim C3: `yield_items` emits, for any store root and any criteria, the
depth-bounded pre-order sequence of the tree filtered by the criteria (so a
matching node always precedes its matching descendants and siblings appear
in store order); in particular, on the fixture tree with no criteria and
`deep = 10` it yields exactly the nodes at paths
`/`, `/g1`, `/g1/a`, `/g1/b`, `/g2` in that order. -/
theorem c3_traversal_preorder_fixture :
    (∀ (nc : String → Bool) (oc : Node → Bool) (nm : String)
       (ch : List Node) (deep : Int),
      yield_items nc oc (Node.group nm ch) deep =
        Except.ok ((preN (Node.group nm ch) deep.natAbs).filter
          (fun x => oc x && nc (Node.name x)))) ∧
    (yield_items _default_criteria _default_criteria fixtureTree 10 =
      Except.ok [fixtureTree, fixtureG1, fixtureA, fixtureB, fixtureG2] ∧
      [fixtureTree, fixtureG1, fixtureA, fixtureB, fixtureG2].map Node.name =
        ["/", "/g1", "/g1/a", "/g1/b", "/g2"]) := by
  constructor
  · intro nc oc nm ch deep
    rw [show yield_items nc oc (Node.group nm ch) deep =
      Except.ok (yieldN nc oc (Node.group nm ch) deep.natAbs) from rfl]
    rw [yieldN_eq_filter nc oc (sizeOf (Node.group nm ch)) (Node.group nm ch)
      (le_refl _) deep.natAbs]
  · exact ⟨rfl, rfl⟩

/-- Claim C4: for every store, `yield_items` with depth budget 0 and the
default (always-true) criteria emits exactly the root node and never
descends into any child. -/
theorem c4_depth_zero_root_only :
    ∀ (nm : String) (ch : List Node),
      yield_items _default_criteria _default_criteria (Node.group nm ch) 0 =
        Except.ok [Node.group nm ch] :=
  fun _ _ => rfl

/-- Claim C5: for every store, criteria and integer depth `d`, traversal
with `deep = d` produces the same result as with `deep = abs d`, and for a
Group root the traversal never raises, whatever the sign of `d`. -/
theorem c5_depth_abs :
    (∀ (nc : String → Bool) (oc : Node → Bool) (node : Node) (d : Int),
      yield_items nc oc node d = yield_items nc oc node |d|) ∧
    (∀ (nc : String → Bool) (oc : Node → Bool) (nm : String)
       (ch : List Node) (d : Int),
      ∃ out, yield_items nc oc (Node.group nm ch) d = Except.ok out) := by
  constructor
  · intro nc oc node d
    cases node with
    | group nm ch =>
      rw [show yield_items nc oc (Node.group nm ch) d =
        Except.ok (yieldN nc oc (Node.group nm ch) d.natAbs) from rfl]
      rw [show yield_items nc oc (Node.group nm ch) |d| =
        Except.ok (yieldN nc oc (Node.group nm ch) (|d|).natAbs) from rfl]
      rw [Int.natAbs_abs]
    | dataset nm => rfl
  · intro nc oc nm ch d
    exact ⟨_, rfl⟩

/-- Claim C7: the store access context opens a fresh handle for a path
string on enter and closes exactly that handle on every exit path (with or
without an exception); an already-open File or Group is yielded unchanged
and is not closed on exit; any other value raises TypeError on enter. -/
theorem c7_h5FileContext :
    (∀ (s : String) (st : H5State) (exc : Bool),
        h5context_enter (H5Ref.path s) st =
          Except.ok (st.nextId, ⟨st.nextId :: st.openIds, st.nextId + 1⟩) ∧
        h5context_exit (H5Ref.path s) st.nextId exc
            ⟨st.nextId :: st.openIds, st.nextId + 1⟩ =
          ⟨st.openIds, st.nextId + 1⟩) ∧
    (∀ (i : Nat) (st : H5State) (handle : Nat) (exc : Bool),
        h5context_enter (H5Ref.file i) st = Except.ok (i, st) ∧
        h5context_enter (H5Ref.group i) st = Except.ok (i, st) ∧
        h5context_exit (H5Ref.file i) handle exc st = st ∧
        h5context_exit (H5Ref.group i) handle exc st = st) ∧
    (∀ st : H5State, h5context_enter H5Ref.other st = Except.error
        (PyErr.typeError "Unsupported type for file_name_or_object. Must be an H5 file or a string file name.")) := by
  refine ⟨?_, ?_, ?_⟩
  · intro s st exc
    refine ⟨rfl, ?_⟩
    simp [h5context_exit]
  · intro i st handle exc
    exact ⟨rfl, rfl, rfl, rfl⟩
  · intro st
    rfl

theorem all_map_id (f : α → Bool) (l : List α) :
    (l.map f).all (fun b => b) = l.all f := by
  induction l with
  | nil => rfl
  | cons x xs ih => simp [List.all_cons, ih]

/-- Claim C8: `criteria_name` with only `starts = ["/root"]` and operator
`"and"` is exactly the prefix test, and whenever it returns true with both
`starts` and `not_ends` under `"and"`, every prefix test and every negated
suffix test holds. -/
theorem c8_criteria_name :
    (∀ path : String,
      criteria_name path [] [] ["/root"] [] [] [] "and" =
        strStarts path "/root") ∧
    (∀ (path : String) (ss ne : List String),
      criteria_name path [] [] ss [] [] ne "and" = true →
        ss.all (fun c => strStarts path c) = true ∧
        ne.all (fun c => !strEnds path c) = true) := by
  constructor
  · intro path
    simp [criteria_name]
  · intro path ss ne h
    simp only [criteria_name, List.isEmpty_nil, if_true, if_pos, Bool.true_and,
      Bool.and_eq_true] at h
    constructor
    · cases ss with
      | nil => rfl
      | cons s srest =>
        have hs := h.1.1.1
        rw [if_neg (by simp), all_map_id] at hs
        exact hs
    · cases ne with
      | nil => rfl
      | cons e erest =>
        have hn := h.2
        rw [if_neg (by simp), all_map_id] at hn
        exact hn

/-- Witness for C8 at `path = "/rootdir"`, `starts = ["/root"]`,
`not_ends = [".tmp"]`. -/
theorem c8_criteria_name_witness :
    criteria_name "/rootdir" [] [] ["/root"] [] [] [".tmp"] "and" = true ∧
    (["/root"].all (fun c => strStarts "/rootdir" c) = true ∧
     [".tmp"].all (fun c => !strEnds "/rootdir" c) = true) :=
  ⟨by decide, c8_criteria_name.2 "/rootdir" ["/root"] [".tmp"] (by decide)⟩

/-- Claim C9: when a child with the requested output name already exists
under the target root Group, both aggregation builders catch the resulting
ValueError and return with the store unchanged: nothing is overwritten and
nothing is written. -/
theorem c9_name_collision :
    ∀ (root : Store) (name : String) (xs ys zs : List (List Int))
      (attributes : List String) (attributes_dict : String → Rat) (n : Rat)
      (dsets : List DSet) (pv : Int),
      root.any (fun l => l.name == name) = true → dsets ≠ [] →
        mk_map_write root name xs ys zs attributes attributes_dict n = root ∧
        mk_profile root dsets pv name attributes = Except.ok root := by
  intro root name xs ys zs attributes adict n dsets pv hm hd
  constructor
  · simp [mk_map_write, create_dataset, hm]
  · cases dsets with
    | nil => exact absurd rfl hd
    | cons d rest => simp [mk_profile, create_dataset, hm]

/-- Witness for C9 on a store that already has a child named `Map`. -/
theorem c9_name_collision_witness :
    ([⟨"Map", H5Data.profile [], []⟩] : Store).any
        (fun l => l.name == "Map") = true ∧
    ([⟨0, [(0, 0)]⟩] : List DSet) ≠ [] ∧
    (mk_map_write [⟨"Map", H5Data.profile [], []⟩] "Map" [] [] [] []
        (fun _ => 0) 1 = [⟨"Map", H5Data.profile [], []⟩] ∧
     mk_profile [⟨"Map", H5Data.profile [], []⟩] [⟨0, [(0, 0)]⟩] 0 "Map" [] =
        Except.ok [⟨"Map", H5Data.profile [], []⟩]) :=
  ⟨by decide, by decide,
   c9_name_collision [⟨"Map", H5Data.profile [], []⟩] "Map" [] [] [] []
     (fun _ => 0) 1 [⟨0, [(0, 0)]⟩] 0 (by decide) (by decide)⟩

/-- Claim C10: whenever `mk_profile` reaches its attribute-averaging step
(nonempty input, no name collision) with a nonempty `attributes` list, it
raises NameError, because the `attributes_dict` it averages from is never
defined inside `mk_profile`; with an empty `attributes` list the profile
Leaf is written normally. -/
theorem c10_mk_profile_undefined_dict :
    ∀ (root : Store) (dsets : List DSet) (pv : Int) (name : String)
      (attributes : List String),
      dsets ≠ [] → root.any (fun l => l.name == name) = false →
        (attributes ≠ [] →
          mk_profile root dsets pv name attributes =
            Except.error (PyErr.nameError "name attributes_dict is not defined")) ∧
        mk_profile root dsets pv name [] =
          Except.ok (root ++ [⟨name, H5Data.profile
            (dsets.map (fun d => (d.xattrVal, profilePoint d pv))), []⟩]) := by
  intro root dsets pv name attributes hd hn
  cases dsets with
  | nil => exact absurd rfl hd
  | cons d rest =>
    constructor
    · intro ha
      cases attributes with
      | nil => exact absurd rfl ha
      | cons a arest => simp [mk_profile, create_dataset, hn]
    · simp [mk_profile, create_dataset, hn]

/-- Witness for C10 on an empty store with one input dataset and
`attributes = ["T"]`. -/
theorem c10_mk_profile_witness :
    ([⟨1, [(1, 2)]⟩] : List DSet) ≠ [] ∧
    ([] : Store).any (fun l => l.name == "Profile") = false ∧
    (((["T"] : List String) ≠ [] →
        mk_profile [] [⟨1, [(1, 2)]⟩] 1 "Profile" ["T"] =
          Except.error (PyErr.nameError "name attributes_dict is not defined")) ∧
     mk_profile [] [⟨1, [(1, 2)]⟩] 1 "Profile" [] =
        Except.ok ([] ++ [⟨"Profile", H5Data.profile
          (([⟨1, [(1, 2)]⟩] : List DSet).map
            (fun d => (d.xattrVal, profilePoint d 1))), []⟩])) :=
  ⟨by decide, by decide,
   c10_mk_profile_undefined_dict [] [⟨1, [(1, 2)]⟩] 1 "Profile" ["T"]
     (by decide) (by decide)⟩
